import Mathlib

/-!
Shallow embedding of the claim-analysis pipeline of `src/orchestrator.py`
(SatyaTrace).  External dependencies (Gemini reasoning service, sentence
embedder, FAISS index, SerpApi search provider) are modelled as oracle data:
each call either raises (`Except.error`) or returns a value, chosen
arbitrarily.  All string manipulation is implemented structurally on
`List Char` so that concrete runs reduce inside the kernel.
-/

namespace SatyaTrace

/-- Whitespace characters stripped by Python `str.strip()` and matched by the
regex class `\s` (ASCII range; the Unicode extras never matter here). -/
def isSpace (c : Char) : Bool :=
  c = ' ' || c = '\t' || c = '\n' || c = '\r' || c = '\x0b' || c = '\x0c'

/-- Python `str.strip()` on a character list. -/
def pyStripChars (l : List Char) : List Char :=
  ((l.dropWhile isSpace).reverse.dropWhile isSpace).reverse

/-- Python `str.strip()` on a string. -/
def pyStrip (s : String) : String := ⟨pyStripChars s.data⟩

/-- Python `str.split('\n')`: splits at every newline, keeping empty pieces
(so the empty string yields one empty piece). -/
def splitLines : List Char → List (List Char)
  | [] => [[]]
  | c :: rest =>
    if c = '\n' then [] :: splitLines rest
    else
      match splitLines rest with
      | [] => [[c]]
      | line :: more => (c :: line) :: more

/-- `re.sub(r'^\d+\.\s*', '', l)`: strip a leading run of digits when it is
followed by a period, together with that period and any following
whitespace; otherwise leave the line unchanged. -/
def stripNumPrefix (l : List Char) : List Char :=
  let ds := l.takeWhile Char.isDigit
  if ds.isEmpty then l
  else
    match l.drop ds.length with
    | '.' :: rest => rest.dropWhile isSpace
    | _ => l

/-- `re.sub(r'^-\s*', '', l)`: strip one leading dash and following
whitespace. -/
def stripDashPrefix : List Char → List Char
  | '-' :: rest => rest.dropWhile isSpace
  | l => l

/-- The accept test of `extract_claims`' parser:
`line and (line[0].isdigit() or line.startswith('-'))` on the already
stripped line. -/
def acceptLine : List Char → Bool
  | [] => false
  | c :: _ => c.isDigit || c = '-'

/-- One iteration of `extract_claims`' parsing loop: strip the line, test it,
and when accepted remove the numbering / dash marker and strip again. -/
def lineClaim (line : List Char) : Option (List Char) :=
  let l := pyStripChars line
  if acceptLine l then some (pyStripChars (stripDashPrefix (stripNumPrefix l)))
  else none

/-- The parsing loop of `extract_claims` over `response.text.strip()`. -/
def parseClaims (claimsText : List Char) : List (List Char) :=
  (splitLines claimsText).filterMap lineClaim

/-- `extract_claims(text)`: the reasoning-service call either raises
(`Except.error`) or returns `response.text`; on any failure the original
text becomes the single claim. -/
def extract_claims (text : String) (resp : Except Unit String) : List String :=
  match resp with
  | .error _ => [text]
  | .ok t => (parseClaims (pyStripChars t.data)).map (fun l => (⟨l⟩ : String))

/-- The retrieval stage's environment: whether the embedder and the FAISS
index loaded at startup, the knowledge-base passages, and the combined
behaviour of `embedder.encode` + `faiss_index.search` per claim and `k`
(`Except.error` = an exception raised inside the try block). -/
structure RetrievalEnv where
  embedderLoaded : Bool
  indexLoaded : Bool
  knowledge_base : List String
  search : String → Nat → Except Unit (List Int)

/-- Python's signed list-index resolution: negative indices count from the
end. -/
def pyIndex (n : Nat) (idx : Int) : Int :=
  if idx < 0 then idx + n else idx

/-- Python `kb[idx]`: negative indices wrap from the end; a resolved index
outside the list raises `IndexError`. -/
def pyListGet (kb : List String) (idx : Int) : Except Unit String :=
  if 0 ≤ pyIndex kb.length idx ∧ pyIndex kb.length idx < (kb.length : Int) then
    .ok (kb.getD (pyIndex kb.length idx).toNat "")
  else .error ()

/-- The inner loop of `retrieve_relevant_context`:
`for idx in indices[0]: if idx < len(knowledge_base):
all_context.append(knowledge_base[idx])`, an `IndexError` propagating. -/
def innerLoop (kb : List String) (acc : List String) :
    List Int → Except Unit (List String)
  | [] => .ok acc
  | idx :: rest =>
    if idx < (kb.length : Int) then
      match pyListGet kb idx with
      | .ok p => innerLoop kb (acc ++ [p]) rest
      | .error e => .error e
    else innerLoop kb acc rest

/-- The outer loop of `retrieve_relevant_context` over the claims, inside the
try block; `k = min(3, len(knowledge_base))` at every call. -/
def retrieveLoop (env : RetrievalEnv) (acc : List String) :
    List String → Except Unit (List String)
  | [] => .ok acc
  | claim :: rest =>
    match env.search claim (min 3 env.knowledge_base.length) with
    | .error e => .error e
    | .ok idxs =>
      match innerLoop env.knowledge_base acc idxs with
      | .error e => .error e
      | .ok acc2 => retrieveLoop env acc2 rest

/-- `retrieve_relevant_context(claims)`: the missing-embedder / missing-index /
empty-corpus guard, then the try block; any exception yields `[]`. -/
def retrieve_relevant_context (env : RetrievalEnv) (claims : List String) :
    List String :=
  if !env.embedderLoaded || !env.indexLoaded || env.knowledge_base.isEmpty then []
  else
    match retrieveLoop env [] claims with
    | .ok ctx => ctx
    | .error _ => []

/-- One organic search result: its `date` and `link` fields, either possibly
absent. -/
structure SearchResult where
  date : Option String
  link : Option String

/-- The decoded SerpApi HTTP response: status code and the
`organic_results` field (absent when the JSON carries no such key). -/
structure SearchResponse where
  status_code : Nat
  organic_results : Option (List SearchResult)

/-- The provenance stage's environment: the `SERPAPI_KEY` setting and the
outcome of `requests.get(...)` + `response.json()` (`Except.error` = an
exception during the call or the JSON decode). -/
structure SearchEnv where
  serpapi_key : Option String
  response : Except Unit SearchResponse

/-- The Forensics record returned by `search_claim_origin`. -/
structure Forensics where
  first_seen : String
  spread_info : String
  deriving DecidableEq

/-- Scanner for `link.split("//")[-1]`: a left-to-right non-overlapping scan
that keeps the text after the last `//` separator (the whole string when
none occurs). -/
def lastAfterDoubleSlash (cur : List Char) : List Char → List Char
  | [] => cur.reverse
  | '/' :: '/' :: rest => lastAfterDoubleSlash [] rest
  | c :: rest => lastAfterDoubleSlash (c :: cur) rest

/-- `result["link"].split("//")[-1].split("/")[0]`. -/
def extractDomain (link : String) : String :=
  ⟨(lastAfterDoubleSlash [] link.data).takeWhile (fun c => c != '/')⟩

/-- Python `<` on strings, viewed as character lists: lexicographic
comparison of code points, a proper prefix comparing below its
extensions. -/
def listLt : List Char → List Char → Bool
  | [], [] => false
  | [], _ :: _ => true
  | _ :: _, [] => false
  | a :: as, b :: bs =>
    if a.toNat < b.toNat then true
    else if b.toNat < a.toNat then false
    else listLt as bs

/-- Python `<` on strings. -/
def pyStrLt (a b : String) : Bool := listLt a.data b.data

/-- Python `min` over a list of strings, seeded with the first element:
lexicographic comparison, the earlier element kept on ties. -/
def pyMinAux (d : String) : List String → String
  | [] => d
  | x :: xs => pyMinAux (if pyStrLt x d then x else d) xs

/-- `search_claim_origin(claim)`: missing credential, transport failure,
non-200 status or missing `organic_results`, and the success path computing
`first_seen` and the spread pattern.  The claim argument shapes only the
outgoing query, never the result. -/
def search_claim_origin (_claim : String) (env : SearchEnv) : Forensics :=
  match env.serpapi_key with
  | none => ⟨"Unknown", "Unable to trace origin"⟩
  | some _ =>
    match env.response with
    | .error _ => ⟨"Unknown", "Search unavailable"⟩
    | .ok resp =>
      if resp.status_code = 200 then
        match resp.organic_results with
        | some results =>
          let dates := results.filterMap SearchResult.date
          let sources := results.filterMap (fun r => r.link.map extractDomain)
          let first_seen :=
            match dates with
            | [] => "Recently"
            | d :: ds => pyMinAux d ds
          let unique_sources := (sources.take 5).dedup
          let spread_pattern :=
            if 3 < unique_sources.length then "Widely shared across multiple platforms"
            else if 1 < unique_sources.length then "Shared on a few platforms"
            else "Limited sharing detected"
          ⟨first_seen, spread_pattern⟩
        | none => ⟨"Unknown", "Unable to trace spread pattern"⟩
      else ⟨"Unknown", "Unable to trace spread pattern"⟩

/-- The synthesis-level canned MEDIUM-risk fallback
(`orchestrator.py`, line 212). -/
def synthFallback : String :=
  "🟡 MEDIUM RISK\n\n**The Gist:** Unable to fully verify this information.\n\n**Why?**\n• Analysis system temporarily unavailable\n• Recommend checking with trusted sources\n\n**Action:** Verify before sharing"

/-- `synthesize_response`: on success the model's `response.text.strip()`,
on any exception the canned fallback.  The non-response arguments only
shape the prompt sent to the reasoning service. -/
def synthesize_response (_claims : List String) (_context : List String)
    (_forensics : Forensics) (_original_text : String)
    (resp : Except Unit String) : String :=
  match resp with
  | .error _ => synthFallback
  | .ok t => pyStrip t

/-- The orchestrator-level canned MEDIUM-risk fallback
(`orchestrator.py`, line 237). -/
def orchFallback : String :=
  "🟡 MEDIUM RISK\n\n**The Gist:** Unable to analyze this message due to technical issues.\n\n**Why?**\n• System temporarily unavailable\n• Recommend manual verification\n\n**Action:** Check with trusted sources before sharing"

/-- One analysis run's view of all external dependencies: the two
reasoning-service calls (extraction, synthesis), the retrieval
environment and the search-provider environment. -/
structure Oracle where
  extractResp : Except Unit String
  retrieval : RetrievalEnv
  searchEnv : SearchEnv
  synthResp : Except Unit String

/-- The body of `run_analysis`'s try block.  Every stage absorbs its own
failures, so the body never raises; the `Except` layer records where an
unexpected error would surface. -/
def run_analysis_body (o : Oracle) (text_in_english : String) :
    Except Unit String :=
  let claims := extract_claims text_in_english o.extractResp
  let context := retrieve_relevant_context o.retrieval claims
  let primary_claim := claims.headD text_in_english
  let forensics := search_claim_origin primary_claim o.searchEnv
  .ok (synthesize_response claims context forensics text_in_english o.synthResp)

/-- `run_analysis(text_in_english)`: the try block plus the
orchestrator-level except handler. -/
def run_analysis (o : Oracle) (text_in_english : String) : String :=
  match run_analysis_body o text_in_english with
  | .ok result => result
  | .error _ => orchFallback

/-- Drop through the first occurrence of `pat` in `s`, returning the
remainder after it, or `none` when `pat` does not occur in `s`. -/
def dropThrough (pat : List Char) : List Char → Option (List Char)
  | [] => if pat.isEmpty then some [] else none
  | c :: rest =>
    if pat.isPrefixOf (c :: rest) then some ((c :: rest).drop pat.length)
    else dropThrough pat rest

/-- Whether each pattern occurs in `s`, each one strictly after the end of
the previous pattern's first occurrence. -/
def containsInOrder (s : List Char) : List (List Char) → Bool
  | [] => true
  | p :: ps =>
    match dropThrough p s with
    | some rest => containsInOrder rest ps
    | none => false

/-- The four literal section headers of the report contract. -/
def gistTag : List Char := "**The Gist:**".data

/-- `**Why?**` header. -/
def whyTag : List Char := "**Why?**".data

/-- `**🔍 Trace Report:**` header. -/
def traceTag : List Char := "**🔍 Trace Report:**".data

/-- `**Action:**` header. -/
def actionTag : List Char := "**Action:**".data

/-- The number of distinct hostnames among the first five organic results
(each read through its `link` field, absent links contributing the empty
hostname). -/
def distinctHostsFirst5 (results : List SearchResult) : Nat :=
  (((results.take 5).map (fun r => extractDomain (r.link.getD ""))).dedup).length

/-- A retrieval environment in which neither the embedder nor the index
loaded and the corpus is empty. -/
def retrievalAbsent : RetrievalEnv := ⟨false, false, [], fun _ _ => .error ()⟩

/-- A search environment with no `SERPAPI_KEY` configured. -/
def searchKeyless : SearchEnv := ⟨none, .error ()⟩

/-- Oracle in which every reasoning call succeeds but the synthesis response
is the empty string. -/
def oracleC1 : Oracle := ⟨.ok "1. Claim one", retrievalAbsent, searchKeyless, .ok ""⟩

/-- Oracle in which only the synthesis call fails. -/
def oracleC2 : Oracle := ⟨.ok "1. Claim one", retrievalAbsent, searchKeyless, .error ()⟩

/-- Another synthesis-failure oracle, for the witness run. -/
def oracleC2w : Oracle := ⟨.ok "1. Another claim", retrievalAbsent, searchKeyless, .error ()⟩

/-- Total-outage oracle: both reasoning-service calls fail. -/
def oracleC3 : Oracle := ⟨.error (), retrievalAbsent, searchKeyless, .error ()⟩

/-- Total-outage oracle with a loaded corpus, for the witness run. -/
def oracleC3w : Oracle :=
  ⟨.error (), ⟨true, true, ["passage"], fun _ _ => .ok [0]⟩, searchKeyless, .error ()⟩

/-- Search environment without a credential but with a healthy provider. -/
def searchEnvNoKey : SearchEnv := ⟨none, .ok ⟨200, some []⟩⟩

/-- Search environment whose HTTP call raises. -/
def searchEnvTransportFail : SearchEnv := ⟨some "key", .error ()⟩

/-- Search environment answering with a non-success status and no
`organic_results` field. -/
def searchEnvMalformed : SearchEnv := ⟨some "key", .ok ⟨500, none⟩⟩

/-- Three organic results from two distinct hostnames. -/
def resultsC7 : List SearchResult :=
  [⟨none, some "https://a.com/x"⟩, ⟨some "2021-01-01", some "https://b.com/y"⟩,
   ⟨none, some "https://a.com/z"⟩]

/-- Search environment returning `resultsC7`. -/
def searchEnvC7 : SearchEnv := ⟨some "key", .ok ⟨200, some resultsC7⟩⟩

/-- Two organic results with unordered dates, the second undated link. -/
def resultsC8 : List SearchResult :=
  [⟨some "2021-03-01", some "https://a.com/x"⟩, ⟨some "2020-01-02", none⟩]

/-- Search environment returning `resultsC8`. -/
def searchEnvC8 : SearchEnv := ⟨some "key", .ok ⟨200, some resultsC8⟩⟩

/-- A loaded retrieval environment over a four-passage corpus whose index
always answers with the neighbour list `[1, 0, 3]`. -/
def envC9w : RetrievalEnv := ⟨true, true, ["p0", "p1", "p2", "p3"], fun _ _ => .ok [1, 0, 3]⟩

/-- The neighbour lists `envC9w`'s index produces, as a pure function. -/
def fC9w : String → List Int := fun _ => [1, 0, 3]

/-- A loaded retrieval environment whose index answers with the FAISS
missing-neighbour sentinel `-1`. -/
def envC10 : RetrievalEnv := ⟨true, true, ["passage A", "passage B"], fun _ _ => .ok [-1]⟩

/-- A loaded retrieval environment mixing a valid index with the `-1`
sentinel, for the witness run. -/
def envC10w : RetrievalEnv := ⟨true, true, ["pX", "pY"], fun _ _ => .ok [0, -1]⟩

/-- Oracle whose synthesis response strips to the empty string, for the C1
witness run. -/
def oracleC1w : Oracle := ⟨.error (), retrievalAbsent, searchKeyless, .ok " "⟩

/-- Claim C1 counterexample: with every dependency call succeeding and the
synthesis response being the empty string, `run_analysis` returns the empty
string, so the claimed non-emptiness fails for this dependency
behaviour. -/
theorem C1_counterexample :
    run_analysis oracleC1 "Drinking bleach cures COVID-19" = "" := rfl

/-- Claim C1 (amended): for every input string and every behaviour of the
external dependencies, `run_analysis` terminates and returns the synthesis
stage's result — the orchestrator-level handler is never reached — and the
returned string is empty exactly when the synthesis-stage reasoning call
succeeds with a response that strips to the empty string; under every
failure behaviour it is non-empty. -/
theorem C1_total_output (o : Oracle) (text : String) :
    run_analysis o text =
      synthesize_response (extract_claims text o.extractResp)
        (retrieve_relevant_context o.retrieval (extract_claims text o.extractResp))
        (search_claim_origin ((extract_claims text o.extractResp).headD text) o.searchEnv)
        text o.synthResp ∧
    (run_analysis o text = "" ↔ ∃ s, o.synthResp = Except.ok s ∧ pyStrip s = "") := by
  refine ⟨rfl, ?_⟩
  cases hs : o.synthResp with
  | error e =>
    simp only [run_analysis, run_analysis_body, synthesize_response, hs]
    constructor
    · intro h; exact absurd h (by decide)
    · rintro ⟨s, hss, -⟩; cases hss
  | ok s =>
    simp only [run_analysis, run_analysis_body, synthesize_response, hs]
    constructor
    · intro h; exact ⟨s, rfl, h⟩
    · rintro ⟨s', hss, h⟩
      injection hss with he
      rw [he]; exact h

/-- Claim C1 witness: the amended characterization applied at a concrete
oracle whose synthesis response is a blank string. -/
theorem C1_witness : run_analysis oracleC1w "check this" = "" :=
  (C1_total_output oracleC1w "check this").2.mpr ⟨" ", rfl, rfl⟩

/-- Claim C2 counterexample: with the synthesis call failing, the returned
canned report lacks the `**🔍 Trace Report:**` section, so the four
sections do not all appear in order. -/
theorem C2_counterexample :
    containsInOrder (run_analysis oracleC2 "text").data
      [gistTag, whyTag, traceTag, actionTag] = false := rfl

/-- Claim C2 (amended): when the synthesis-stage reasoning call fails, the
returned string contains `**The Gist:**`, `**Why?**`, `**Action:**` in that
order but not `**🔍 Trace Report:**`; when the call succeeds the returned
string is the service's stripped response text, so the four sections appear
only if the service emits them. -/
theorem C2_sections (o : Oracle) (text : String) (h : o.synthResp = .error ()) :
    containsInOrder (run_analysis o text).data [gistTag, whyTag, actionTag] = true ∧
    containsInOrder (run_analysis o text).data [traceTag] = false := by
  have hr : run_analysis o text = synthFallback := by
    simp only [run_analysis, run_analysis_body, synthesize_response, h]
  rw [hr]
  exact ⟨rfl, rfl⟩

/-- Claim C2 witness: the amended statement at a concrete
synthesis-failure oracle. -/
theorem C2_witness :
    containsInOrder (run_analysis oracleC2w "Is this true?").data
      [gistTag, whyTag, actionTag] = true ∧
    containsInOrder (run_analysis oracleC2w "Is this true?").data [traceTag] = false :=
  C2_sections oracleC2w "Is this true?" rfl

/-- Claim C3 counterexample: under total reasoning-service outage the
output is not the orchestrator-level canned fallback. -/
theorem C3_counterexample :
    run_analysis oracleC3 "Drinking bleach cures COVID-19" ≠ orchFallback := by decide

/-- Claim C3 (amended): under total reasoning-service outage the output
equals the synthesis-level canned fallback — the stage-level handler
absorbs the failure before the orchestrator-level one can — and that
string differs in content from the orchestrator-level canned fallback. -/
theorem C3_outage_fallback (o : Oracle) (text : String)
    (_he : o.extractResp = .error ()) (hs : o.synthResp = .error ()) :
    run_analysis o text = synthFallback ∧ synthFallback ≠ orchFallback := by
  refine ⟨?_, by decide⟩
  simp only [run_analysis, run_analysis_body, synthesize_response, hs]

/-- Claim C3 witness: the amended statement at a concrete total-outage
oracle. -/
theorem C3_witness :
    run_analysis oracleC3w "Is the earth flat?" = synthFallback ∧
    synthFallback ≠ orchFallback :=
  C3_outage_fallback oracleC3w "Is the earth flat?" rfl rfl

/-- Claim C4 counterexample: a successful reasoning response none of whose
lines carries a list marker makes `extract_claims` return the empty list,
refuting the claimed non-emptiness. -/
theorem C4_counterexample :
    extract_claims "The moon is made of cheese" (.ok "No verifiable claims found.") = [] := rfl

/-- Claim C4 (amended): when the reasoning call raises, `extract_claims`
returns exactly the single-element list with the original text; when the
call succeeds the result is the parsed list, which is empty precisely when
no line of the stripped response is accepted by the marker test — so the
output can be empty, and `run_analysis` guards for that case
separately. -/
theorem C4_extraction (text t : String) :
    extract_claims text (.error ()) = [text] ∧
    (extract_claims text (.ok t) = [] ↔
      ∀ line ∈ splitLines (pyStripChars t.data), lineClaim line = none) := by
  refine ⟨rfl, ?_⟩
  simp [extract_claims, parseClaims, List.map_eq_nil_iff, List.filterMap_eq_nil_iff]

/-- Claim C4 witness: the failure branch of the amended statement at a
concrete input. -/
theorem C4_witness :
    extract_claims "The moon is made of cheese" (.error ()) = ["The moon is made of cheese"] :=
  (C4_extraction "The moon is made of cheese" "x").1

/-- The accept test succeeds exactly on lines whose first character is a
digit or a dash. -/
theorem acceptLine_iff (l : List Char) :
    acceptLine l = true ↔ ∃ c rest, l = c :: rest ∧ (c.isDigit = true ∨ c = '-') := by
  cases l with
  | nil => simp [acceptLine]
  | cons c rest =>
    simp [acceptLine]

/-- Claim C5 counterexample: the line `7 dwarfs live here` starts with a
digit that is not followed by a period and does not start with a dash, yet
the parser accepts it verbatim instead of discarding it. -/
theorem C5_counterexample :
    extract_claims "x" (.ok "7 dwarfs live here") = ["7 dwarfs live here"] ∧
    "7 dwarfs live here".data.getD 1 ' ' ≠ '.' ∧
    "7 dwarfs live here".data.headD ' ' ≠ '-' :=
  ⟨rfl, by decide, by decide⟩

/-- Claim C5 (amended): a trimmed line is accepted as a claim iff it is
non-empty and its first character is a digit — whether or not a period
follows — or a dash; on accepted lines the numbering prefix
(digits+period+whitespace) and dash prefix are stripped and the remainder
is trimmed; every non-matching line is silently discarded. -/
theorem C5_line_rule (line : List Char) :
    ((lineClaim line).isSome = true ↔
      ∃ c rest, pyStripChars line = c :: rest ∧ (c.isDigit = true ∨ c = '-')) ∧
    ∀ cl, lineClaim line = some cl →
      cl = pyStripChars (stripDashPrefix (stripNumPrefix (pyStripChars line))) := by
  constructor
  · rw [← acceptLine_iff]
    unfold lineClaim
    by_cases h : acceptLine (pyStripChars line) = true
    · simp [h]
    · simp [h]
  · intro cl hcl
    unfold lineClaim at hcl
    by_cases h : acceptLine (pyStripChars line) = true
    · rw [if_pos h] at hcl
      injection hcl with he
      exact he.symm
    · rw [if_neg h] at hcl
      cases hcl

/-- Claim C5 witness: the amended acceptance rule applied to a concrete
numbered line. -/
theorem C5_witness : (lineClaim "2. Second claim".data).isSome = true :=
  (C5_line_rule "2. Second claim".data).1.mpr
    ⟨'2', ". Second claim".data, rfl, Or.inl rfl⟩

/-- `listLt` never relates a list to itself. -/
theorem listLt_irrefl : ∀ a : List Char, listLt a a = false := by
  intro a
  induction a with
  | nil => rfl
  | cons x xs ih => simp [listLt, Nat.lt_irrefl, ih]

/-- `listLt` is transitive. -/
theorem listLt_trans : ∀ a b c : List Char,
    listLt a b = true → listLt b c = true → listLt a c = true := by
  intro a
  induction a with
  | nil =>
    intro b c hab hbc
    cases b with
    | nil => exact absurd hab (by simp [listLt])
    | cons y ys =>
      cases c with
      | nil => exact absurd hbc (by simp [listLt])
      | cons z zs => simp [listLt]
  | cons x xs ih =>
    intro b c hab hbc
    cases b with
    | nil => exact absurd hab (by simp [listLt])
    | cons y ys =>
      cases c with
      | nil => exact absurd hbc (by simp [listLt])
      | cons z zs =>
        simp only [listLt] at hab hbc ⊢
        split_ifs at hab hbc ⊢ <;>
          first
          | rfl
          | omega
          | exact ih ys zs hab hbc

/-- Failure of `listLt` is transitive as well. -/
theorem listLt_trans_false : ∀ a b c : List Char,
    listLt a b = false → listLt b c = false → listLt a c = false := by
  intro a
  induction a with
  | nil =>
    intro b c hab hbc
    cases b with
    | nil =>
      cases c with
      | nil => rfl
      | cons z zs => exact absurd hbc (by simp [listLt])
    | cons y ys => exact absurd hab (by simp [listLt])
  | cons x xs ih =>
    intro b c hab hbc
    cases b with
    | nil =>
      cases c with
      | nil => rfl
      | cons z zs => exact absurd hbc (by simp [listLt])
    | cons y ys =>
      cases c with
      | nil => rfl
      | cons z zs =>
        simp only [listLt] at hab hbc ⊢
        split_ifs at hab hbc ⊢ <;>
          first
          | rfl
          | omega
          | exact ih ys zs hab hbc

/-- `pyMinAux d ds` is an element of `d :: ds` and no element of `d :: ds`
compares strictly below it: it is the lexicographic minimum. -/
theorem pyMinAux_spec : ∀ (ds : List String) (d : String),
    pyMinAux d ds ∈ d :: ds ∧
    ∀ x ∈ d :: ds, pyStrLt x (pyMinAux d ds) = false := by
  intro ds
  induction ds with
  | nil =>
    intro d
    refine ⟨List.mem_cons_self d [], ?_⟩
    intro x hx
    rw [List.mem_singleton] at hx
    subst hx
    exact listLt_irrefl x.data
  | cons y ys ih =>
    intro d
    have hred : pyMinAux d (y :: ys) = pyMinAux (if pyStrLt y d then y else d) ys := rfl
    obtain ⟨ihm, ihlb⟩ := ih (if pyStrLt y d then y else d)
    constructor
    · rw [hred]
      rcases List.mem_cons.mp ihm with he | hm
      · rw [he]
        by_cases hyd : pyStrLt y d = true
        · rw [if_pos hyd]
          exact List.mem_cons_of_mem _ (List.mem_cons_self _ _)
        · rw [if_neg hyd]
          exact List.mem_cons_self _ _
      · exact List.mem_cons_of_mem _ (List.mem_cons_of_mem _ hm)
    · intro x hx
      rw [hred]
      rcases List.mem_cons.mp hx with hxd | hx2
      · rw [hxd]
        by_cases hyd : pyStrLt y d = true
        · rw [if_pos hyd] at ihlb ⊢
          have hy : listLt y.data (pyMinAux y ys).data = false :=
            ihlb y (List.mem_cons_self _ _)
          cases h : pyStrLt d (pyMinAux y ys) with
          | false => rfl
          | true =>
            have h2 := listLt_trans y.data d.data (pyMinAux y ys).data hyd h
            rw [hy] at h2
            exact Bool.noConfusion h2
        · rw [if_neg hyd] at ihlb ⊢
          exact ihlb d (List.mem_cons_self _ _)
      · rcases List.mem_cons.mp hx2 with hxy | hxs
        · rw [hxy]
          by_cases hyd : pyStrLt y d = true
          · rw [if_pos hyd] at ihlb ⊢
            exact ihlb y (List.mem_cons_self _ _)
          · rw [if_neg hyd] at ihlb ⊢
            have hyd' : pyStrLt y d = false := Bool.eq_false_iff.mpr hyd
            have hd := ihlb d (List.mem_cons_self _ _)
            exact listLt_trans_false y.data d.data (pyMinAux d ys).data hyd' hd
        · exact ihlb x (List.mem_cons_of_mem _ hxs)

/-- Claim C6: the three provenance failure causes yield three
pairwise-distinct Forensics records: missing credential, transport error,
and a non-success or malformed (no `organic_results`) response. -/
theorem C6_failure_forensics (claim : String) (env1 env2 env3 : SearchEnv)
    (k2 k3 : String) (resp3 : SearchResponse)
    (h1 : env1.serpapi_key = none)
    (h2k : env2.serpapi_key = some k2) (h2 : env2.response = .error ())
    (h3k : env3.serpapi_key = some k3) (h3 : env3.response = .ok resp3)
    (h3m : resp3.status_code ≠ 200 ∨ resp3.organic_results = none) :
    search_claim_origin claim env1 = ⟨"Unknown", "Unable to trace origin"⟩ ∧
    search_claim_origin claim env2 = ⟨"Unknown", "Search unavailable"⟩ ∧
    search_claim_origin claim env3 = ⟨"Unknown", "Unable to trace spread pattern"⟩ ∧
    search_claim_origin claim env1 ≠ search_claim_origin claim env2 ∧
    search_claim_origin claim env1 ≠ search_claim_origin claim env3 ∧
    search_claim_origin claim env2 ≠ search_claim_origin claim env3 := by
  have e1 : search_claim_origin claim env1 = ⟨"Unknown", "Unable to trace origin"⟩ := by
    simp [search_claim_origin, h1]
  have e2 : search_claim_origin claim env2 = ⟨"Unknown", "Search unavailable"⟩ := by
    simp [search_claim_origin, h2k, h2]
  have e3 : search_claim_origin claim env3 = ⟨"Unknown", "Unable to trace spread pattern"⟩ := by
    rcases h3m with hst | hog
    · simp [search_claim_origin, h3k, h3, hst]
    · by_cases hst : resp3.status_code = 200
      · simp [search_claim_origin, h3k, h3, hst, hog]
      · simp [search_claim_origin, h3k, h3, hst]
  refine ⟨e1, e2, e3, ?_, ?_, ?_⟩
  · rw [e1, e2]; decide
  · rw [e1, e3]; decide
  · rw [e2, e3]; decide

/-- Claim C6 witness: the three failure behaviours at concrete
environments. -/
theorem C6_witness :
    search_claim_origin "c" searchEnvNoKey = ⟨"Unknown", "Unable to trace origin"⟩ ∧
    search_claim_origin "c" searchEnvTransportFail = ⟨"Unknown", "Search unavailable"⟩ ∧
    search_claim_origin "c" searchEnvMalformed = ⟨"Unknown", "Unable to trace spread pattern"⟩ ∧
    search_claim_origin "c" searchEnvNoKey ≠ search_claim_origin "c" searchEnvTransportFail ∧
    search_claim_origin "c" searchEnvNoKey ≠ search_claim_origin "c" searchEnvMalformed ∧
    search_claim_origin "c" searchEnvTransportFail ≠ search_claim_origin "c" searchEnvMalformed :=
  C6_failure_forensics "c" searchEnvNoKey searchEnvTransportFail searchEnvMalformed
    "key" "key" ⟨500, none⟩ rfl rfl rfl rfl rfl (Or.inl (by decide))

/-- When every result carries a link, the hostname list the code builds is
the hostname of each result in order. -/
theorem filterMap_domains_eq_map (results : List SearchResult)
    (hl : ∀ r ∈ results, r.link.isSome = true) :
    results.filterMap (fun r => r.link.map extractDomain)
      = results.map (fun r => extractDomain (r.link.getD "")) := by
  induction results with
  | nil => rfl
  | cons r rs ih =>
    obtain ⟨l, hlk⟩ := Option.isSome_iff_exists.mp (hl r (List.mem_cons_self r rs))
    have hl' : ∀ x ∈ rs, x.link.isSome = true :=
      fun x hx => hl x (List.mem_cons_of_mem _ hx)
    simp [hlk, ih hl']

/-- Claim C7: on a successful search with organic results (each carrying a
link) the spread classification is driven by the number of distinct
hostnames among the first five results: more than 3 distinct hosts, 2–3
distinct hosts, and at most 1 distinct host give the three respective
phrases. -/
theorem C7_spread (claim key : String) (results : List SearchResult) (env : SearchEnv)
    (hk : env.serpapi_key = some key)
    (hr : env.response = .ok ⟨200, some results⟩)
    (hl : ∀ r ∈ results, r.link.isSome = true) :
    (3 < distinctHostsFirst5 results →
      (search_claim_origin claim env).spread_info = "Widely shared across multiple platforms") ∧
    (2 ≤ distinctHostsFirst5 results → distinctHostsFirst5 results ≤ 3 →
      (search_claim_origin claim env).spread_info = "Shared on a few platforms") ∧
    (distinctHostsFirst5 results ≤ 1 →
      (search_claim_origin claim env).spread_info = "Limited sharing detected") := by
  have hsp : (search_claim_origin claim env).spread_info =
      (if 3 < distinctHostsFirst5 results then "Widely shared across multiple platforms"
       else if 1 < distinctHostsFirst5 results then "Shared on a few platforms"
       else "Limited sharing detected") := by
    simp [search_claim_origin, hk, hr, filterMap_domains_eq_map results hl,
      distinctHostsFirst5, List.map_take]
  refine ⟨fun h => ?_, fun h2 h3 => ?_, fun h => ?_⟩
  · rw [hsp, if_pos h]
  · rw [hsp, if_neg (by omega), if_pos (by omega)]
  · rw [hsp, if_neg (by omega), if_neg (by omega)]

/-- Claim C7 witness: two distinct hostnames among three results classify
as `Shared on a few platforms`. -/
theorem C7_witness :
    (search_claim_origin "c" searchEnvC7).spread_info = "Shared on a few platforms" :=
  (C7_spread "c" "key" resultsC7 searchEnvC7 rfl rfl (by decide)).2.1
    (by decide) (by decide)

/-- Claim C8: on a successful search with organic results, `first_seen` is
the lexicographic (code-point string order) minimum of all date fields
present among the results — an element of the date list below or equal to
every other — and the sentinel `Recently` when no result carries a
date. -/
theorem C8_first_seen (claim key : String) (results : List SearchResult) (env : SearchEnv)
    (hk : env.serpapi_key = some key)
    (hr : env.response = .ok ⟨200, some results⟩) :
    (results.filterMap SearchResult.date = [] →
      (search_claim_origin claim env).first_seen = "Recently") ∧
    (∀ d ds, results.filterMap SearchResult.date = d :: ds →
      (search_claim_origin claim env).first_seen ∈ results.filterMap SearchResult.date ∧
      ∀ x ∈ results.filterMap SearchResult.date,
        pyStrLt x (search_claim_origin claim env).first_seen = false) := by
  constructor
  · intro hd
    simp [search_claim_origin, hk, hr, hd]
  · intro d ds hd
    have hfs : (search_claim_origin claim env).first_seen = pyMinAux d ds := by
      simp [search_claim_origin, hk, hr, hd]
    rw [hfs, hd]
    exact pyMinAux_spec ds d

/-- Claim C8 witness: with dates `2021-03-01` and `2020-01-02`,
`first_seen` is a member of the date list and no date is below it. -/
theorem C8_witness :
    (search_claim_origin "c" searchEnvC8).first_seen ∈ resultsC8.filterMap SearchResult.date ∧
    ∀ x ∈ resultsC8.filterMap SearchResult.date,
      pyStrLt x (search_claim_origin "c" searchEnvC8).first_seen = false :=
  (C8_first_seen "c" "key" resultsC8 searchEnvC8 rfl rfl).2
    "2021-03-01" ["2020-01-02"] rfl

/-- `pyListGet` at a non-negative in-range index reads that position. -/
theorem pyListGet_nonneg (kb : List String) (i : Int) (h0 : 0 ≤ i)
    (hl : i < (kb.length : Int)) : pyListGet kb i = .ok (kb.getD i.toNat "") := by
  have hj : pyIndex kb.length i = i := by
    unfold pyIndex
    rw [if_neg (not_lt.mpr h0)]
  unfold pyListGet
  rw [hj, if_pos ⟨h0, hl⟩]

/-- Any passage `pyListGet` returns is an element of the list. -/
theorem pyListGet_mem (kb : List String) (i : Int) (p : String)
    (h : pyListGet kb i = .ok p) : p ∈ kb := by
  unfold pyListGet at h
  split at h
  case isTrue hc =>
    injection h with he
    have hlt : (pyIndex kb.length i).toNat < kb.length := by omega
    rw [← he, List.getD_eq_getElem?_getD, List.getElem?_eq_getElem hlt]
    simp only [Option.getD_some]
    exact List.getElem_mem hlt
  case isFalse hc => exact absurd h (by simp)

/-- The inner retrieval loop over valid indices appends exactly the indexed
passages in order. -/
theorem innerLoop_valid (kb : List String) :
    ∀ (idxs : List Int), (∀ i ∈ idxs, 0 ≤ i ∧ i < (kb.length : Int)) →
    ∀ acc, innerLoop kb acc idxs =
      .ok (acc ++ idxs.map (fun i => kb.getD i.toNat "")) := by
  intro idxs
  induction idxs with
  | nil => intro _ acc; simp [innerLoop]
  | cons i rest ih =>
    intro hv acc
    obtain ⟨h0, hl⟩ := hv i (List.mem_cons_self i rest)
    have hv' : ∀ j ∈ rest, 0 ≤ j ∧ j < (kb.length : Int) :=
      fun j hj => hv j (List.mem_cons_of_mem _ hj)
    simp only [innerLoop, if_pos hl, pyListGet_nonneg kb i h0 hl]
    rw [ih hv' (acc ++ [kb.getD i.toNat ""])]
    simp

/-- The outer retrieval loop over well-behaved searches accumulates, claim
by claim, the indexed passages. -/
theorem retrieveLoop_valid (env : RetrievalEnv) (f : String → List Int) :
    ∀ (claims : List String),
    (∀ c ∈ claims, env.search c (min 3 env.knowledge_base.length) = .ok (f c)) →
    (∀ c ∈ claims, ∀ i ∈ f c, 0 ≤ i ∧ i < (env.knowledge_base.length : Int)) →
    ∀ acc, retrieveLoop env acc claims =
      .ok (acc ++ (claims.map
        (fun c => (f c).map (fun i => env.knowledge_base.getD i.toNat ""))).flatten) := by
  intro claims
  induction claims with
  | nil => intro _ _ acc; simp [retrieveLoop]
  | cons c rest ih =>
    intro hs hv acc
    have hsc := hs c (List.mem_cons_self _ _)
    have hvc := hv c (List.mem_cons_self _ _)
    have hs' : ∀ x ∈ rest, env.search x (min 3 env.knowledge_base.length) = .ok (f x) :=
      fun x hx => hs x (List.mem_cons_of_mem _ hx)
    have hv' : ∀ x ∈ rest, ∀ i ∈ f x, 0 ≤ i ∧ i < (env.knowledge_base.length : Int) :=
      fun x hx => hv x (List.mem_cons_of_mem _ hx)
    simp only [retrieveLoop, hsc, innerLoop_valid env.knowledge_base (f c) hvc acc]
    rw [ih hs' hv' (acc ++ (f c).map (fun i => env.knowledge_base.getD i.toNat ""))]
    simp

/-- Claim C9: retrieval flattens, in claim order and per-claim rank order
with no deduplication, the `k = min(3, corpus size)` neighbours the index
returns for each claim; and it returns the empty list whenever the
embedder or the index is absent or the corpus is empty, without raising. -/
theorem C9_retrieval :
    (∀ (env : RetrievalEnv) (claims : List String),
      env.embedderLoaded = false ∨ env.indexLoaded = false ∨ env.knowledge_base = [] →
      retrieve_relevant_context env claims = []) ∧
    (∀ (env : RetrievalEnv) (claims : List String) (f : String → List Int),
      env.embedderLoaded = true → env.indexLoaded = true → env.knowledge_base ≠ [] →
      (∀ c ∈ claims, env.search c (min 3 env.knowledge_base.length) = .ok (f c)) →
      (∀ c ∈ claims, ∀ i ∈ f c, 0 ≤ i ∧ i < (env.knowledge_base.length : Int)) →
      retrieve_relevant_context env claims =
        (claims.map
          (fun c => (f c).map (fun i => env.knowledge_base.getD i.toNat ""))).flatten) := by
  constructor
  · intro env claims h
    rcases h with h | h | h <;> simp [retrieve_relevant_context, h]
  · intro env claims f hemb hidx hkb hs hv
    have hne : env.knowledge_base.isEmpty = false := by
      cases hkbl : env.knowledge_base with
      | nil => exact absurd hkbl hkb
      | cons a l => rfl
    simp [retrieve_relevant_context, hemb, hidx, hne,
      retrieveLoop_valid env f claims hs hv []]

/-- Claim C9 witness: the degraded mode at an absent environment, and the
flattening at a four-passage corpus whose index always answers
`[1, 0, 3]`. -/
theorem C9_witness :
    retrieve_relevant_context retrievalAbsent ["a claim"] = [] ∧
    retrieve_relevant_context envC9w ["a", "b"] = ["p1", "p0", "p3", "p1", "p0", "p3"] := by
  constructor
  · exact C9_retrieval.1 retrievalAbsent ["a claim"] (Or.inl rfl)
  · have h := C9_retrieval.2 envC9w ["a", "b"] fC9w rfl rfl (by decide)
      (fun c _ => rfl) (by decide)
    rw [h]
    rfl

/-- Claim C10 counterexample: the FAISS missing-neighbour sentinel `-1`
passes the `idx < len(knowledge_base)` guard and appends the passage at
Python position `-1` — the last passage — although the index is
negative, refuting the claimed `0 ≤ idx` invariant. -/
theorem C10_counterexample :
    envC10.search "q" (min 3 envC10.knowledge_base.length) = .ok [-1] ∧
    retrieve_relevant_context envC10 ["q"] = ["passage B"] ∧ (-1 : Int) < 0 :=
  ⟨rfl, rfl, by decide⟩

/-- Any passage the inner loop emits comes from its accumulator or from the
knowledge base. -/
theorem innerLoop_mem (kb : List String) :
    ∀ (idxs : List Int) (acc out : List String),
    innerLoop kb acc idxs = .ok out → ∀ p ∈ out, p ∈ acc ∨ p ∈ kb := by
  intro idxs
  induction idxs with
  | nil =>
    intro acc out h p hp
    simp only [innerLoop] at h
    injection h with he
    subst he
    exact Or.inl hp
  | cons i rest ih =>
    intro acc out h p hp
    simp only [innerLoop] at h
    split at h
    case isTrue hc =>
      cases hg : pyListGet kb i with
      | ok q =>
        simp only [hg] at h
        rcases ih (acc ++ [q]) out h p hp with hin | hin
        · rcases List.mem_append.mp hin with ha | hq
          · exact Or.inl ha
          · rw [List.mem_singleton] at hq
            rw [hq]
            exact Or.inr (pyListGet_mem kb i q hg)
        · exact Or.inr hin
      | error e =>
        simp [hg] at h
    case isFalse hc => exact ih acc out h p hp

/-- Any passage the outer loop emits comes from its accumulator or from the
knowledge base. -/
theorem retrieveLoop_mem (env : RetrievalEnv) :
    ∀ (claims : List String) (acc out : List String),
    retrieveLoop env acc claims = .ok out →
    ∀ p ∈ out, p ∈ acc ∨ p ∈ env.knowledge_base := by
  intro claims
  induction claims with
  | nil =>
    intro acc out h p hp
    simp only [retrieveLoop] at h
    injection h with he
    subst he
    exact Or.inl hp
  | cons c rest ih =>
    intro acc out h p hp
    simp only [retrieveLoop] at h
    cases hsearch : env.search c (min 3 env.knowledge_base.length) with
    | error e => simp [hsearch] at h
    | ok idxs =>
      simp only [hsearch] at h
      cases hinner : innerLoop env.knowledge_base acc idxs with
      | error e => simp [hinner] at h
      | ok acc2 =>
        simp only [hinner] at h
        rcases ih acc2 out h p hp with h2 | h2
        · rcases innerLoop_mem env.knowledge_base idxs acc acc2 hinner p h2 with h3 | h3
          · exact Or.inl h3
          · exact Or.inr h3
        · exact Or.inr h2

/-- Claim C10 (amended): a passage is appended only when the signed guard
`idx < len(knowledge_base)` passes, and under Python's signed indexing the
lookup resolves inside the corpus for `-len ≤ idx` (negative indices wrap
from the end, so `-1` reads the last passage) while `idx < -len` raises
`IndexError`, which the stage handler converts to an empty evidence list —
hence every passage the function ever returns is an element of the
knowledge base and no lookup reads outside the corpus, though the guard
does not make the index non-negative. -/
theorem C10_corpus_membership (env : RetrievalEnv) (claims : List String) (p : String)
    (hp : p ∈ retrieve_relevant_context env claims) : p ∈ env.knowledge_base := by
  unfold retrieve_relevant_context at hp
  split at hp
  · exact absurd hp (List.not_mem_nil p)
  · cases hloop : retrieveLoop env [] claims with
    | ok ctx =>
      simp only [hloop] at hp
      rcases retrieveLoop_mem env claims [] ctx hloop p hp with h | h
      · exact absurd h (List.not_mem_nil p)
      · exact h
    | error e =>
      simp only [hloop] at hp
      exact absurd hp (List.not_mem_nil p)

/-- Claim C10 witness: the membership safety applied at a corpus whose
index mixes a valid position with the `-1` sentinel. -/
theorem C10_witness : "pY" ∈ envC10w.knowledge_base :=
  C10_corpus_membership envC10w ["q"] "pY" (by decide)

end SatyaTrace
